import Mathlib

/-!
Verification of the lead-generation pipeline of the Churros-ai repository.

The development shallowly embeds the TypeScript sources:

* `src/lib/matcher.ts`                       → namespace `Matcher`
* `src/app/api/generate-leads/route.ts`      → namespaces `GenerateLeads` (first
  document) and `ProfileAnalysis` (second document, the profile-analysis route)
* `src/app/api/on-demand-scrape/route.ts`    → namespace `OnDemandRoute`
* `src/unnamed/part_005` (two concatenated variants of the on-demand-scrape
  route) → namespaces `PartFive` (shared helpers, first document) and
  `PartFiveV2` (second document, which hardens GitHub API error handling)

Modelling conventions, used consistently below:

* JS `number` is modelled as `ℚ`; the cosine-similarity path of the matcher
  uses `Math.sqrt`, so that one computation lives in `ℝ` (`Real.sqrt`).
* JS strings are Lean `String`s; the handful of string operations the code
  uses (`toLowerCase`, `includes`, `split`, `trim`, `replace`) are defined
  below over `String.data` so that concrete instances reduce in the kernel.
* ISO timestamp strings are modelled as rational epoch milliseconds (the code
  only ever compares them through `Date` arithmetic).
* External effects (HTTP responses, the Groq LLM reply, `Math.random` draws,
  `randomUUID`, the current time) are explicit parameters of the embedded
  functions; a `catch`-able failure of an external call is an `Except.error`
  or `Option.none` input.
-/

/-! ## JS string primitives -/

/-- Whether the first list occurs as a contiguous run in the second: `hasSubstr needle hay` means `needle` occurs as a contiguous run in `hay`
(character-list version of JS `String.prototype.includes`). -/
def hasSubstr : List Char → List Char → Bool
  | needle, [] => needle.isEmpty
  | needle, h :: t => List.isPrefixOf needle (h :: t) || hasSubstr needle t

/-- JS `s.includes(sub)`. -/
def jsIncludes (s sub : String) : Bool := hasSubstr sub.data s.data

/-- JS `s.toLowerCase()` (ASCII; all text handled by the code is ASCII). -/
def jsToLower (s : String) : String := String.mk (s.data.map Char.toLower)

/-- JS `s.trim()`. -/
def jsTrim (s : String) : String :=
  String.mk (((s.data.dropWhile Char.isWhitespace).reverse.dropWhile Char.isWhitespace).reverse)

/-- Maximal runs of characters not satisfying `sep`, left to right.
This models JS `s.split(/\s+/)` (with `sep := Char.isWhitespace`) up to the
single leading/trailing empty token JS produces when the string starts or ends
with a separator; every call site in the sources immediately filters the split
result by a positive minimum length, which removes those empty tokens, so the
two readings agree at every use below. -/
def splitRuns (sep : Char → Bool) : List Char → List Char → List (List Char)
  | [], acc => if acc.isEmpty then [] else [acc.reverse]
  | c :: cs, acc =>
    if sep c then
      (if acc.isEmpty then splitRuns sep cs [] else acc.reverse :: splitRuns sep cs [])
    else splitRuns sep cs (c :: acc)

/-- JS `s.split(/\s+/)` (see `splitRuns`). -/
def jsSplitWs (s : String) : List String := (splitRuns Char.isWhitespace s.data []).map String.mk

/-- Exact JS `s.split(sep)` for a single-character separator: every occurrence
of `sep` cuts, and empty pieces are kept (`"a  b".split(' ') = ["a","","b"]`,
`"".split(' ') = [""]`). -/
def splitOnChar (sep : Char) : List Char → List (List Char)
  | [] => [[]]
  | c :: cs =>
    if c = sep then [] :: splitOnChar sep cs
    else
      match splitOnChar sep cs with
      | r :: rs => (c :: r) :: rs
      | [] => [[c]]

/-- JS `s.split(c)` for a one-character separator string. -/
def jsSplitChar (sep : Char) (s : String) : List String := (splitOnChar sep s.data).map String.mk

/-- JS `x || d` for an optional string: `null`/`undefined` and `""` are falsy. -/
def jsOrStr (o : Option String) (d : String) : String :=
  match o with
  | some s => if s = "" then d else s
  | none => d

/-- JS `x || d` for an optional number: `null`/`undefined` and `0` are falsy. -/
def jsOrNum (o : Option ℚ) (d : ℚ) : ℚ :=
  match o with
  | some x => if x = 0 then d else x
  | none => d

/-- JS truthiness of a nullable string field. -/
def jsTruthyStr (o : Option String) : Bool :=
  match o with
  | some s => !(s = "")
  | none => false

/-! ## Data model (`src/lib/types.ts`, embedded at the end of `matcher.ts`) -/

/-- Model of `PlatformType` — closed five-value enum. -/
inductive Platform
  | github
  | twitter
  | linkedin
  | substack
  | other
deriving DecidableEq

/-- The central `Profile` entity. Timestamp strings are modelled as rational
epoch milliseconds (see the header). -/
structure Profile where
  id : String
  name : String
  bio : Option String
  platform : Platform
  tags : List String
  score : ℚ
  last_updated : ℚ
  fit_summary : Option String
  profile_url : Option String
  username : Option String := none
  created_at : ℚ := 0
  updated_at : ℚ := 0
  avatar_url : Option String := none
  followers : Option ℤ := none
  following : Option ℤ := none
  location : Option String := none
  public_repos : Option ℤ := none
deriving DecidableEq

/-! ## Aggregator (`src/app/api/generate-leads/route.ts`, POST steps 3–4) -/

namespace GenerateLeads

/-- The natural key used for de-duplication. -/
def natKey (p : Profile) : String × Platform := (p.name, p.platform)

/-- Boolean natural-key test `l.name === lead.name && l.platform === lead.platform`. -/
def keyEq (q lead : Profile) : Bool := q.name == lead.name && decide (q.platform = lead.platform)

/-- Step 3 of the POST handler:
`allLeads.filter((lead, index, self) => index === self.findIndex(l => l.name === lead.name && l.platform === lead.platform))`
— an element is kept exactly when its index is the first index carrying its
natural key. -/
def uniqueLeads (allLeads : List Profile) : List Profile :=
  (allLeads.enum.filter
    (fun ix => allLeads.findIdx (fun q => keyEq q ix.2) == ix.1)).map (fun ix => ix.2)

/-- The comparator of step 4: `.sort((a, b) => b.score - a.score)` orders by
score descending; JS `Array.prototype.sort` is stable, modelled by
`List.mergeSort`. -/
def scoreDesc (a b : Profile) : Bool := decide (b.score ≤ a.score)

/-- Step 4 of the POST handler: sort the de-duplicated leads by score
descending and `.slice(0, limit)`. -/
def sortedLeads (allLeads : List Profile) (limit : ℕ) : List Profile :=
  (((uniqueLeads allLeads).mergeSort scoreDesc).take limit)

theorem keyEq_iff (q lead : Profile) :
    keyEq q lead = true ↔ natKey q = natKey lead := by
  simp [keyEq, natKey, Prod.ext_iff]

theorem keyEq_refl (p : Profile) : keyEq p p = true := by
  simp [keyEq_iff]

theorem find?_eq_getElem?_findIdx {α : Type _} (p : α → Bool) (l : List α) :
    l.find? p = l[l.findIdx p]? := by
  induction l with
  | nil => rfl
  | cons a t ih =>
    by_cases h : p a
    · simp [List.find?_cons_of_pos _ h, List.findIdx_cons, h]
    · simp [List.find?_cons_of_neg _ h, List.findIdx_cons, h, ih]

theorem le_fst_of_mem_enumFrom {α : Type _} {x : ℕ × α} :
    ∀ {n : ℕ} {l : List α}, x ∈ l.enumFrom n → n ≤ x.1 := by
  intro n l
  induction l generalizing n with
  | nil => simp
  | cons a t ih =>
    intro hx
    rcases List.mem_cons.mp hx with h | h
    · simp [h]
    · exact le_trans (Nat.le_succ n) (ih h)

theorem pairwise_fst_lt_enumFrom {α : Type _} :
    ∀ (n : ℕ) (l : List α), (l.enumFrom n).Pairwise (fun a b => a.1 < b.1) := by
  intro n l
  induction l generalizing n with
  | nil => simp
  | cons a t ih =>
    refine List.Pairwise.cons ?_ (ih (n + 1))
    intro y hy
    exact lt_of_lt_of_le (Nat.lt_succ_self n) (le_fst_of_mem_enumFrom hy)

theorem pairwise_fst_lt_enum {α : Type _} (l : List α) :
    l.enum.Pairwise (fun a b => a.1 < b.1) :=
  pairwise_fst_lt_enumFrom 0 l

/-- Distinct survivors of the de-duplication filter carry distinct keys. -/
theorem uniqueLeads_pairwise (allLeads : List Profile) :
    (uniqueLeads allLeads).Pairwise (fun a b => ¬ keyEq a b = true) := by
  have hfil :
      (allLeads.enum.filter
        (fun ix => allLeads.findIdx (fun q => keyEq q ix.2) == ix.1)).Pairwise
        (fun a b => a.1 < b.1) :=
    (pairwise_fst_lt_enum allLeads).filter _
  have hfil2 :
      (allLeads.enum.filter
        (fun ix => allLeads.findIdx (fun q => keyEq q ix.2) == ix.1)).Pairwise
        (fun a b => ¬ keyEq a.2 b.2 = true) := by
    refine hfil.imp_of_mem ?_
    intro a b ha hb hlt hk
    have hca := (List.mem_filter.mp ha).2
    have hcb := (List.mem_filter.mp hb).2
    have hia : allLeads.findIdx (fun q => keyEq q a.2) = a.1 := by
      simpa using hca
    have hib : allLeads.findIdx (fun q => keyEq q b.2) = b.1 := by
      simpa using hcb
    have hfn : (fun q => keyEq q a.2) = (fun q => keyEq q b.2) := by
      funext q
      have hk' := (keyEq_iff a.2 b.2).mp hk
      by_cases hq : keyEq q a.2 = true
      · have : natKey q = natKey b.2 := ((keyEq_iff q a.2).mp hq).trans hk'
        simp [hq, (keyEq_iff q b.2).mpr this]
      · have hq2 : ¬ keyEq q b.2 = true := by
          intro hq2
          exact hq ((keyEq_iff q a.2).mpr (((keyEq_iff q b.2).mp hq2).trans hk'.symm))
        simp [Bool.eq_false_iff.mpr hq, Bool.eq_false_iff.mpr hq2]
    rw [hfn, hib] at hia
    exact absurd hia (Nat.ne_of_lt hlt).symm
  exact (List.pairwise_map).mpr hfil2

/-- The first profile of `allLeads` carrying a given key survives into
`uniqueLeads allLeads`. -/
theorem find?_mem_uniqueLeads {allLeads : List Profile} {x y : Profile}
    (hy : allLeads.find? (fun q => keyEq q x) = some y) :
    y ∈ uniqueLeads allLeads := by
  have hkey : keyEq y x = true := by simpa using List.find?_some hy
  have hex : ∃ q ∈ allLeads, keyEq q x = true := by
    have h1 : (allLeads.find? (fun q => keyEq q x)).isSome := by simp [hy]
    simpa using List.find?_isSome.mp h1
  have hlt : allLeads.findIdx (fun q => keyEq q x) < allLeads.length :=
    List.findIdx_lt_length.mpr (by simpa using hex)
  have hget : allLeads[allLeads.findIdx (fun q => keyEq q x)]? = some y := by
    rw [← find?_eq_getElem?_findIdx]; exact hy
  have hfn : (fun q => keyEq q y) = (fun q => keyEq q x) := by
    funext q
    have hk' := (keyEq_iff y x).mp hkey
    by_cases hq : keyEq q y = true
    · have : natKey q = natKey x := ((keyEq_iff q y).mp hq).trans hk'
      simp [hq, (keyEq_iff q x).mpr this]
    · have hq2 : ¬ keyEq q x = true := by
        intro hq2
        exact hq ((keyEq_iff q y).mpr (((keyEq_iff q x).mp hq2).trans hk'.symm))
      simp [Bool.eq_false_iff.mpr hq, Bool.eq_false_iff.mpr hq2]
  refine List.mem_map.mpr ?_
  refine ⟨(allLeads.findIdx (fun q => keyEq q x), y), ?_, rfl⟩
  refine List.mem_filter.mpr ⟨?_, ?_⟩
  · exact List.mem_enum_iff_getElem?.mpr hget
  · simp only [hfn]
    simp

/-- De-duplication keeps exactly one profile per key: the first encountered. -/
theorem uniqueLeads_filter_key (allLeads : List Profile) (x : Profile)
    (hx : x ∈ allLeads) :
    (uniqueLeads allLeads).filter (fun y => keyEq y x) =
      (allLeads.find? (fun q => keyEq q x)).toList := by
  have hex : (allLeads.find? (fun q => keyEq q x)).isSome :=
    List.find?_isSome.mpr ⟨x, hx, keyEq_refl x⟩
  obtain ⟨y₀, hy₀⟩ := Option.isSome_iff_exists.mp hex
  have hy₀mem : y₀ ∈ (uniqueLeads allLeads).filter (fun y => keyEq y x) :=
    List.mem_filter.mpr ⟨find?_mem_uniqueLeads hy₀, by simpa using List.find?_some hy₀⟩
  have hpair : ((uniqueLeads allLeads).filter (fun y => keyEq y x)).Pairwise
      (fun a b => ¬ keyEq a b = true) :=
    (uniqueLeads_pairwise allLeads).filter _
  have hall : ∀ z ∈ (uniqueLeads allLeads).filter (fun y => keyEq y x),
      keyEq z x = true := fun z hz => by simpa using (List.mem_filter.mp hz).2
  rw [hy₀]
  match hF : (uniqueLeads allLeads).filter (fun y => keyEq y x), hy₀mem, hpair, hall with
  | [z], hy₀mem, _, _ =>
    have : y₀ = z := by simpa using hy₀mem
    simp [this, Option.toList]
  | z₁ :: z₂ :: zs, _, hpair, hall =>
    have h1 : keyEq z₁ x = true := hall z₁ (by simp)
    have h2 : keyEq z₂ x = true := hall z₂ (by simp)
    have h12 : keyEq z₁ z₂ = true :=
      (keyEq_iff z₁ z₂).mpr (((keyEq_iff z₁ x).mp h1).trans ((keyEq_iff z₂ x).mp h2).symm)
    exact absurd h12 ((List.pairwise_cons.mp hpair).1 z₂ (by simp))

theorem scoreDesc_trans (a b c : Profile) :
    scoreDesc a b → scoreDesc b c → scoreDesc a c := by
  simp only [scoreDesc, decide_eq_true_eq]
  exact fun hab hbc => le_trans hbc hab

theorem scoreDesc_total (a b : Profile) : scoreDesc a b || scoreDesc b a := by
  simp only [scoreDesc]
  simpa using le_total b.score a.score

end GenerateLeads

/-- C3. The `generate-leads` POST handler de-duplicates the combined lead
list by the natural key `(name, platform)` keeping the first occurrence, then
sorts by score descending and truncates to `limit`: the returned list has at
most `limit` elements, its scores are non-increasing, no two entries share a
natural key, and for every incoming lead the de-duplicated list contains
exactly one profile with its key — the first one encountered. -/
theorem c3_aggregator_dedup_sort_truncate (allLeads : List Profile) (limit : ℕ) :
    (GenerateLeads.sortedLeads allLeads limit).length ≤ limit ∧
    (GenerateLeads.sortedLeads allLeads limit).Pairwise (fun a b => b.score ≤ a.score) ∧
    ((GenerateLeads.sortedLeads allLeads limit).map GenerateLeads.natKey).Nodup ∧
    (∀ x ∈ allLeads,
      (GenerateLeads.uniqueLeads allLeads).filter (fun y => GenerateLeads.keyEq y x) =
        (allLeads.find? (fun q => GenerateLeads.keyEq q x)).toList) := by
  refine ⟨?_, ?_, ?_, GenerateLeads.uniqueLeads_filter_key allLeads⟩
  · simp only [GenerateLeads.sortedLeads, List.length_take]
    exact min_le_left _ _
  · have hs := List.sorted_mergeSort
      GenerateLeads.scoreDesc_trans GenerateLeads.scoreDesc_total
      (GenerateLeads.uniqueLeads allLeads)
    have hs' : ((GenerateLeads.uniqueLeads allLeads).mergeSort
        GenerateLeads.scoreDesc).Pairwise (fun a b => b.score ≤ a.score) :=
      hs.imp (fun h => by simpa [GenerateLeads.scoreDesc] using h)
    exact hs'.sublist (List.take_sublist _ _)
  · have hdu : ((GenerateLeads.uniqueLeads allLeads).map GenerateLeads.natKey).Nodup := by
      have hp : (GenerateLeads.uniqueLeads allLeads).Pairwise
          (fun a b => GenerateLeads.natKey a ≠ GenerateLeads.natKey b) :=
        (GenerateLeads.uniqueLeads_pairwise allLeads).imp_of_mem
          (fun _ _ h hk => h ((GenerateLeads.keyEq_iff _ _).mpr hk))
      exact (List.pairwise_map).mpr hp
    have hperm : List.Perm
        (((GenerateLeads.uniqueLeads allLeads).mergeSort
          GenerateLeads.scoreDesc).map GenerateLeads.natKey)
        ((GenerateLeads.uniqueLeads allLeads).map GenerateLeads.natKey) :=
      (List.mergeSort_perm _ _).map _
    have hnd := hperm.symm.nodup hdu
    have hsub : List.Sublist
        ((GenerateLeads.sortedLeads allLeads limit).map GenerateLeads.natKey)
        (((GenerateLeads.uniqueLeads allLeads).mergeSort
          GenerateLeads.scoreDesc).map GenerateLeads.natKey) :=
      (List.take_sublist _ _).map _
    exact hnd.sublist hsub

/-! ## General helper: first-occurrence de-duplication (JS `Set` insertion
order / `Object.keys` insertion order) -/

/-- Body of `firstDedup`, carrying the set of elements already emitted. -/
def firstDedupAux {α : Type _} [DecidableEq α] (seen : List α) : List α → List α
  | [] => []
  | x :: xs =>
    if seen.contains x then firstDedupAux seen xs
    else x :: firstDedupAux (x :: seen) xs

/-- Keeps the first occurrence of every element, in order — the semantics of
`[...new Set(xs)]` and of `Object.keys` of an object populated left to right
with non-index string keys. -/
def firstDedup {α : Type _} [DecidableEq α] (l : List α) : List α := firstDedupAux [] l

theorem firstDedupAux_nodup {α : Type _} [DecidableEq α] :
    ∀ (l seen : List α),
      (firstDedupAux seen l).Nodup ∧ ∀ y ∈ firstDedupAux seen l, y ∉ seen := by
  intro l
  induction l with
  | nil => intro seen; simp [firstDedupAux]
  | cons x xs ih =>
    intro seen
    simp only [firstDedupAux]
    by_cases hx : seen.contains x = true
    · rw [if_pos hx]
      exact ih seen
    · rw [if_neg hx]
      obtain ⟨ihn, ihs⟩ := ih (x :: seen)
      have hxnot : x ∉ firstDedupAux (x :: seen) xs := fun hmem =>
        ihs x hmem (List.mem_cons_self x seen)
      refine ⟨List.nodup_cons.mpr ⟨hxnot, ihn⟩, ?_⟩
      intro y hy
      rcases List.mem_cons.mp hy with h | h
      · subst h
        intro hseen
        exact hx (by simpa using hseen)
      · exact fun hseen => ihs y h (List.mem_cons_of_mem _ hseen)

theorem nodup_firstDedup {α : Type _} [DecidableEq α] (l : List α) :
    (firstDedup l).Nodup := (firstDedupAux_nodup l []).1

/-! ## Relevance scorer (`src/lib/matcher.ts`, class `ProfileMatcher`) -/

namespace Matcher

/-- Output of the scorer (`MatchScore` in `matcher.ts`); the score lives in
`ℝ` because the vector-similarity component divides by `Math.sqrt` norms. -/
structure MatchScore where
  profile : Profile
  score : ℝ
  reasons : List String

/-- Constant table `ProfileMatcher.WEIGHTS`. -/
structure Weights where
  tagMatch : ℚ
  bioSimilarity : ℚ
  vectorSimilarity : ℚ
  platformRelevance : ℚ
  recency : ℚ

def WEIGHTS : Weights :=
  { tagMatch := 0.3
    bioSimilarity := 0.25
    vectorSimilarity := 0.3
    platformRelevance := 0.1
    recency := 0.05 }

/-- The fixed vocabulary of `ProfileMatcher.extractTags`. -/
def commonTags : List String :=
  ["javascript", "typescript", "react", "node", "python", "ai", "ml",
   "startup", "tech", "developer", "entrepreneur", "writer", "designer",
   "product", "marketing", "growth", "saas", "open source", "blockchain",
   "web3", "data", "analytics", "mobile", "ios", "android", "fullstack",
   "frontend", "backend", "devops", "cloud", "aws", "gcp", "azure",
   "fintech", "healthtech", "edtech", "ecommerce", "social", "media",
   "content", "creator", "influencer", "consultant", "freelancer"]

/-- Embedding of `ProfileMatcher.extractTags`: every vocabulary entry occurring as a
substring of the lowercased text, in vocabulary order.  Note: no bound on the
result length. -/
def extractTags (text : String) : List String :=
  commonTags.filter (fun tag => jsIncludes (jsToLower text) tag)

/-- The `variations` synonym table of `isTagMatch`, in insertion order. -/
def variations : List (String × List String) :=
  [("ai", ["artificial intelligence", "machine learning", "ml"]),
   ("ml", ["machine learning", "artificial intelligence", "ai"]),
   ("saas", ["software as a service", "subscription"]),
   ("startup", ["startup", "start-up", "company"]),
   ("developer", ["dev", "programmer", "coder"]),
   ("entrepreneur", ["founder", "ceo", "business owner"])]

/-- Embedding of `ProfileMatcher.isTagMatch`: exact equality, substring containment in
either direction, or a hit in the synonym table with the key on either side. -/
def isTagMatch (tag1 tag2 : String) : Bool :=
  if tag1 == tag2 then true
  else if jsIncludes tag1 tag2 || jsIncludes tag2 tag1 then true
  else
    variations.any (fun kv =>
      (tag1 == kv.1 && kv.2.contains tag2) || (tag2 == kv.1 && kv.2.contains tag1))

/-- Result of `calculateTagMatch`. -/
structure TagMatchResult where
  score : ℚ
  matchedTags : List String

/-- Embedding of `ProfileMatcher.calculateTagMatch`: the nested loop pushes the profile tag
(and bumps the counter) for every matching (company tag, profile tag) pair;
the displayed tags are de-duplicated afterwards (`[...new Set(...)]`). -/
def calculateTagMatch (companyDNA : String) (profileTags : List String) : TagMatchResult :=
  let companyTags := extractTags companyDNA
  let matchedPairs := companyTags.flatMap (fun ct => profileTags.filter (fun pt => isTagMatch ct pt))
  let matchCount := matchedPairs.length
  let score : ℚ :=
    if profileTags.length > 0 then
      (matchCount : ℚ) / ((max companyTags.length profileTags.length : ℕ) : ℚ)
    else 0
  { score := score, matchedTags := firstDedup matchedPairs }

/-- Embedding of `ProfileMatcher.tokenize`: lowercase, delete characters outside `\w` and
whitespace, split on whitespace, keep tokens longer than 2 (ASCII model of
`\w`). -/
def tokenize (text : String) : List String :=
  let cleaned := (jsToLower text).data.filter
    (fun c => ('a' ≤ c ∧ c ≤ 'z') ∨ ('0' ≤ c ∧ c ≤ '9') ∨ c = '_' ∨ c.isWhitespace)
  ((splitRuns Char.isWhitespace cleaned []).map String.mk).filter (fun w => w.length > 2)

/-- Embedding of `ProfileMatcher.calculateBioSimilarity`. -/
def calculateBioSimilarity (companyDNA bio : String) : ℚ :=
  if bio = "" then 0
  else
    let companyWords := tokenize companyDNA
    let bioWords := tokenize bio
    let commonWords :=
      (companyWords.filter (fun word => bioWords.contains word && word.length > 3)).length
    if bioWords.length > 0 then
      (commonWords : ℚ) / ((max companyWords.length bioWords.length : ℕ) : ℚ)
    else 0

def techKeywords : List String :=
  ["tech", "software", "developer", "programming", "code", "ai", "ml", "data"]

def socialKeywords : List String :=
  ["social", "community", "network", "content", "creator", "influencer"]

def contentKeywords : List String :=
  ["content", "writer", "author", "newsletter", "blog", "publish"]

def businessKeywords : List String :=
  ["business", "startup", "entrepreneur", "founder", "ceo", "company"]

def hasTechKeywords (text : String) : Bool := techKeywords.any (fun k => jsIncludes text k)

def hasSocialKeywords (text : String) : Bool := socialKeywords.any (fun k => jsIncludes text k)

def hasContentKeywords (text : String) : Bool := contentKeywords.any (fun k => jsIncludes text k)

def hasBusinessKeywords (text : String) : Bool := businessKeywords.any (fun k => jsIncludes text k)

/-- Embedding of `ProfileMatcher.calculatePlatformRelevance`. -/
def calculatePlatformRelevance (companyDNA : String) (platform : Platform) : ℚ :=
  let dna := jsToLower companyDNA
  match platform with
  | .github => if hasTechKeywords dna then 0.9 else 0.3
  | .twitter => if hasSocialKeywords dna then 0.8 else 0.5
  | .substack => if hasContentKeywords dna then 0.8 else 0.4
  | .linkedin => if hasBusinessKeywords dna then 0.9 else 0.6
  | .other => 0.5

/-- Embedding of `ProfileMatcher.calculateRecencyScore` (`now` is `Date.now()` in epoch
milliseconds, `lastUpdated` the parsed `last_updated` timestamp). -/
def calculateRecencyScore (lastUpdated now : ℚ) : ℚ :=
  let daysSinceUpdate := (now - lastUpdated) / (1000 * 60 * 60 * 24)
  if daysSinceUpdate ≤ 1 then 1.0
  else if daysSinceUpdate ≤ 7 then 0.9
  else if daysSinceUpdate ≤ 30 then 0.7
  else if daysSinceUpdate ≤ 90 then 0.5
  else 0.3

/-- Embedding of `ProfileMatcher.calculateCosineSimilarity`: 0 on length mismatch or a zero
norm, otherwise the dot product over the product of the `Math.sqrt` norms. -/
noncomputable def calculateCosineSimilarity (vec1 vec2 : List ℚ) : ℝ :=
  if vec1.length ≠ vec2.length then 0
  else
    let dotProduct : ℚ := (vec1.zip vec2).foldl (fun acc p => acc + p.1 * p.2) 0
    let norm1 : ℝ := Real.sqrt ((vec1.foldl (fun acc x => acc + x * x) 0 : ℚ) : ℝ)
    let norm2 : ℝ := Real.sqrt ((vec2.foldl (fun acc x => acc + x * x) 0 : ℚ) : ℝ)
    if norm1 = 0 ∨ norm2 = 0 then 0 else (dotProduct : ℝ) / (norm1 * norm2)

/-- String rendering of the platform enum (template literal
`${profile.platform}`). -/
def platformName : Platform → String
  | .github => "github"
  | .twitter => "twitter"
  | .linkedin => "linkedin"
  | .substack => "substack"
  | .other => "other"

/-- The vector-similarity contribution of `calculateMatchScore`: the branch is
entered only when `companyEmbedding` is present (JS: any array is truthy) and
`profile.bio` is truthy; `pe` is the outcome of the `getEmbedding(profile.bio)`
call made inside the branch (`none` models a thrown error, which the `catch`
only logs). -/
noncomputable def vectorContribution (p : Profile) (ce pe : Option (List ℚ)) : ℝ :=
  match ce with
  | some c =>
    if jsTruthyStr p.bio then
      match pe with
      | some e => calculateCosineSimilarity c e * (WEIGHTS.vectorSimilarity : ℝ)
      | none => 0
    else 0
  | none => 0

/-- Whether the vector term is included (condition of the same branch). -/
def vectorUsed (p : Profile) (ce pe : Option (List ℚ)) : Bool :=
  ce.isSome && jsTruthyStr p.bio && pe.isSome

/-- Embedding of `ProfileMatcher.calculateMatchScore`.  `ce` is the company-DNA embedding
(`companyEmbedding`, optional), `pe` the result of the profile-bio embedding
call (see `vectorContribution`), `now` the current time in epoch ms. -/
noncomputable def calculateMatchScore (companyDNA : String) (p : Profile)
    (ce pe : Option (List ℚ)) (now : ℚ) : MatchScore :=
  let tagScore := calculateTagMatch companyDNA p.tags
  let r1 : List String :=
    if 0 < tagScore.score then
      ["Tag match: " ++ String.intercalate ", " tagScore.matchedTags]
    else []
  let bioScore := calculateBioSimilarity companyDNA (jsOrStr p.bio "")
  let r2 : List String := if (0.3 : ℚ) < bioScore then ["Bio content relevance"] else []
  let rVec : List String :=
    match ce, pe with
    | some c, some e =>
      if jsTruthyStr p.bio then
        (if (0.5 : ℝ) < calculateCosineSimilarity c e then ["High semantic similarity"] else [])
      else []
    | _, _ => []
  let platformScore := calculatePlatformRelevance companyDNA p.platform
  let r4 : List String :=
    if (0.5 : ℚ) < platformScore then [platformName p.platform ++ " platform relevance"] else []
  let recencyScore := calculateRecencyScore p.last_updated now
  let r5 : List String := if (0.8 : ℚ) < recencyScore then ["Recently active"] else []
  let totalScore : ℝ :=
    (0 : ℝ)
      + (tagScore.score : ℝ) * (WEIGHTS.tagMatch : ℝ)
      + (bioScore : ℝ) * (WEIGHTS.bioSimilarity : ℝ)
      + vectorContribution p ce pe
      + (platformScore : ℝ) * (WEIGHTS.platformRelevance : ℝ)
      + (recencyScore : ℝ) * (WEIGHTS.recency : ℝ)
      + (p.score : ℝ) * 0.2
  { profile := p
    score := min totalScore 1
    reasons := r1 ++ r2 ++ rVec ++ r4 ++ r5 }

/-- The cosine value the spec formula refers to (defined whenever both
embeddings are present). -/
noncomputable def vectorSimilarityOf (ce pe : Option (List ℚ)) : ℝ :=
  match ce, pe with
  | some c, some e => calculateCosineSimilarity c e
  | _, _ => 0

/-- The composite formula exactly as the specification (§4.4) and claim C4
word it: `tagMatchScore*0.30 + bioSimilarity*0.25 + vectorSimilarity*0.30`
(vector term only when included) `+ platformRelevance*0.10 + recencyScore*0.05`
plus the additive base contribution `profile.score*0.2`, before the final cap. -/
noncomputable def specCompositeScore (companyDNA : String) (p : Profile)
    (ce pe : Option (List ℚ)) (now : ℚ) : ℝ :=
  ((calculateTagMatch companyDNA p.tags).score : ℝ) * 0.30
    + (calculateBioSimilarity companyDNA (jsOrStr p.bio "") : ℝ) * 0.25
    + (if vectorUsed p ce pe then vectorSimilarityOf ce pe * 0.30 else 0)
    + (calculatePlatformRelevance companyDNA p.platform : ℝ) * 0.10
    + (calculateRecencyScore p.last_updated now : ℝ) * 0.05
    + (p.score : ℝ) * 0.2

end Matcher

namespace Matcher

theorem tagMatch_score_nonneg (companyDNA : String) (profileTags : List String) :
    0 ≤ (calculateTagMatch companyDNA profileTags).score := by
  unfold calculateTagMatch
  dsimp only
  split
  · positivity
  · exact le_refl 0

theorem bioSimilarity_nonneg (companyDNA bio : String) :
    0 ≤ calculateBioSimilarity companyDNA bio := by
  unfold calculateBioSimilarity
  split
  · exact le_refl 0
  · dsimp only
    split
    · positivity
    · exact le_refl 0

theorem platformRelevance_nonneg (companyDNA : String) (platform : Platform) :
    0 ≤ calculatePlatformRelevance companyDNA platform := by
  unfold calculatePlatformRelevance
  rcases platform <;> dsimp only <;> (try split) <;> norm_num

theorem recencyScore_nonneg (lastUpdated now : ℚ) :
    0 ≤ calculateRecencyScore lastUpdated now := by
  unfold calculateRecencyScore
  dsimp only
  repeat' split
  all_goals norm_num

end Matcher

/-- C4. For every company-DNA query, profile, optional company embedding
and profile-embedding outcome, the score returned by
`ProfileMatcher.calculateMatchScore` is exactly the weighted sum
`tagMatchScore*0.30 + bioSimilarity*0.25 + vectorSimilarity*0.30` (the vector
term present only in the embedding branch, with no renormalisation when it is
absent) `+ platformRelevance*0.10 + recencyScore*0.05 + profile.score*0.2`,
capped at `1.0`; and with no company embedding available the vector term is
never included. -/
theorem c4_composite_weighted_formula :
    (∀ (companyDNA : String) (p : Profile) (ce pe : Option (List ℚ)) (now : ℚ),
      (Matcher.calculateMatchScore companyDNA p ce pe now).score =
        min (Matcher.specCompositeScore companyDNA p ce pe now) 1) ∧
    (∀ (p : Profile) (pe : Option (List ℚ)), Matcher.vectorUsed p none pe = false) := by
  constructor
  · intro companyDNA p ce pe now
    rcases ce with _ | c <;> rcases pe with _ | e <;> by_cases hb : jsTruthyStr p.bio <;>
      · simp only [Matcher.calculateMatchScore, Matcher.specCompositeScore,
          Matcher.vectorContribution, Matcher.vectorUsed, Matcher.vectorSimilarityOf,
          Option.isSome_none, Option.isSome_some, hb, Bool.and_true, Bool.and_false,
          Bool.true_and, Bool.false_and, if_true, if_false, Bool.false_eq_true]
        congr 1
        norm_num [Matcher.WEIGHTS]
  · intro p pe
    simp [Matcher.vectorUsed]

/-- C10. `isTagMatch` is symmetric: exact equality, two-sided substring
containment and the two-sided synonym-table lookup all commute under swapping
the arguments. -/
theorem c10_isTagMatch_symmetric (a b : String) :
    Matcher.isTagMatch a b = Matcher.isTagMatch b a := by
  have e1 : (a == b) = (b == a) := by
    by_cases h : a = b
    · simp [h]
    · have h' : ¬ b = a := fun hh => h hh.symm
      simp [h, h']
  have e2 : (jsIncludes a b || jsIncludes b a) = (jsIncludes b a || jsIncludes a b) :=
    Bool.or_comm _ _
  have e3 : (fun kv : String × List String =>
      (a == kv.1 && kv.2.contains b) || (b == kv.1 && kv.2.contains a)) =
      (fun kv : String × List String =>
      (b == kv.1 && kv.2.contains a) || (a == kv.1 && kv.2.contains b)) := by
    funext kv
    exact Bool.or_comm _ _
  unfold Matcher.isTagMatch
  rw [e1, e2, e3]

/-! ## Shared shapes for the scraping routes -/

/-- Shape of a GitHub user object as the routes consume it (search items and
detailed `/users/:login` payloads share this shape; absent JSON fields are
`none`). -/
structure GHUser where
  login : String
  type : String
  name : Option String := none
  bio : Option String := none
  company : Option String := none
  html_url : Option String := none
  avatar_url : Option String := none
  followers : Option ℤ := none
  following : Option ℤ := none
  location : Option String := none
  public_repos : Option ℤ := none
deriving DecidableEq

/-- Outcome of the GitHub search-API call: an ok response carrying `items`, or
a non-ok status with status text and body. -/
inductive GHResp
  | ok (items : List GHUser)
  | err (status : ℕ) (statusText body : String)

/-- Ambient effects consumed while building profiles: `randomUUID()` (as a
function of how many profiles were built before the call) and the current time
`new Date()` in epoch ms. -/
structure Ctx where
  uuid : ℕ → String
  now : ℚ

/-- Parsed JSON payload of an LLM analysis reply; a field is `none` when it is
absent (or not of the expected type) in the returned object. -/
structure GroqAnalysis where
  fitSummary : Option String := none
  score : Option ℚ := none
  tags : Option (List String) := none
deriving DecidableEq

/-- Result shape `{ fitSummary, score, tags }` of the per-profile enrichment. -/
structure EnrichedAnalysis where
  fitSummary : String
  score : ℚ
  tags : List String
deriving DecidableEq

/-- Outcome of the whole Groq interaction of one enrichment call: `fail`
collects every `catch`-able failure (non-ok HTTP response, missing content,
no JSON found, `JSON.parse` throw), `parsed` carries the parsed object. -/
inductive GroqOutcome
  | fail (e : String)
  | parsed (a : GroqAnalysis)

/-! ## On-demand scrape route (`src/app/api/on-demand-scrape/route.ts`) -/

namespace OnDemandRoute

/-- Exit-path model of `scrapeProfiles`: `launch` is the outcome of
`playwright.chromium.launch`, `inner` the outcome of everything the `try`
block does after a successful launch (page setup and the platform scraper
call).  The code awaits `browser.close()` only at the end of the `try` block;
the `catch` wraps and re-throws without closing. -/
structure ScrapeRun where
  result : Except String (List Profile)
  browserLaunched : Bool
  browserClosed : Bool

/-- Embedding of `scrapeProfiles` (route.ts lines 55–111). -/
def scrapeProfiles (launch : Except String Unit)
    (inner : Except String (List Profile)) : ScrapeRun :=
  match launch with
  | .error e =>
    { result := .error ("Scraping failed: " ++ e), browserLaunched := false, browserClosed := false }
  | .ok _ =>
    match inner with
    | .ok ps => { result := .ok ps, browserLaunched := true, browserClosed := true }
    | .error e =>
      { result := .error ("Scraping failed: " ++ e), browserLaunched := true, browserClosed := false }

/-- Vocabulary of the route's `extractTags`. -/
def techKeywords : List String :=
  ["javascript", "python", "react", "node", "typescript", "java", "go", "rust",
   "ai", "ml", "machine learning", "data science", "frontend", "backend",
   "devops", "cloud", "aws", "docker", "kubernetes", "sql", "nosql",
   "design", "ux", "ui", "product", "management", "leadership"]

/-- Helper for `keyword.replace(/\s+/g, '-')`: the flag records whether the
previous character was whitespace, so a whole whitespace run contributes one
dash. -/
def dashWsAux : Bool → List Char → List Char
  | _, [] => []
  | prevWs, c :: cs =>
    if c.isWhitespace then
      (if prevWs then dashWsAux true cs else '-' :: dashWsAux true cs)
    else c :: dashWsAux false cs

/-- Model of JS `s.replace(/\s+/g, '-')`. -/
def dashWs (s : String) : String := String.mk (dashWsAux false s.data)

/-- Embedding of the route's `extractTags` (lines 590–609): push every
vocabulary keyword contained in the lowercased text (whitespace dashed), then
`slice(0, 10)`. -/
def extractTags (text : String) : List String :=
  ((techKeywords.filter (fun keyword => jsIncludes (jsToLower text) keyword)).map dashWs).take 10

/-- Role/skill vocabulary of the route's `parseGitHubQuery`. -/
def roles : List String :=
  ["designer", "developer", "engineer", "manager", "lead", "architect",
   "artist", "writer", "founder", "maker", "builder", "hacker", "coder",
   "programmer", "consultant", "specialist", "expert", "professional",
   "frontend", "backend", "fullstack", "ui", "ux", "product", "data",
   "devops", "mobile", "web", "software", "systems", "cloud", "ai", "ml",
   "machine learning", "data science", "analyst", "scientist"]

/-- Activity-indicator vocabulary of the route's `parseGitHubQuery`. -/
def activityKeywords : List String :=
  ["active", "activity", "recent", "commit", "contributor", "repos",
   "repository", "contributions", "posts", "tweets", "updates", "latest",
   "ongoing", "current", "recently", "frequently", "regular"]

/-- Experience-level vocabulary of the route's `parseGitHubQuery`. -/
def experienceKeywords : List String :=
  ["senior", "junior", "mid", "experienced", "expert", "beginner",
   "advanced", "intermediate", "veteran", "seasoned", "new", "fresh"]

/-- Stop-list used when extracting meaningful words from the prompt. -/
def promptStopWords : List String :=
  ["with", "who", "that", "have", "has", "are", "is", "the", "a", "an", "and",
   "or", "but", "in", "on", "at", "to", "for", "of", "by", "github", "git"]

/-- Return shape of `parseGitHubQuery`. -/
structure GHQuery where
  searchQuery : String
  filters : List String
  sortBy : String
deriving DecidableEq

/-- Detected role keywords plus the detected experience level, in code order. -/
def detectedKeywords (prompt : String) : List String :=
  let queryLower := jsToLower prompt
  (roles.filter (fun role => jsIncludes queryLower role)) ++
    (match experienceKeywords.find? (fun k => jsIncludes queryLower k) with
     | some e => [e]
     | none => [])

/-- Detected experience level, `""` when none (`find(...) || ''`). -/
def experienceLevel (prompt : String) : String :=
  (experienceKeywords.find? (fun k => jsIncludes (jsToLower prompt) k)).getD ""

/-- Whether any activity keyword occurs in the lowercased prompt. -/
def hasActivityKeyword (prompt : String) : Bool :=
  activityKeywords.any (fun k => jsIncludes (jsToLower prompt) k)

/-- Value of the local `searchQuery` before the `'developer'` fallback:
detected keywords joined, else meaningful prompt words joined. -/
def rawSearchQuery (prompt : String) : String :=
  if (detectedKeywords prompt).length > 0 then String.intercalate " " (detectedKeywords prompt)
  else
    String.intercalate " "
      ((jsSplitWs (jsToLower prompt)).filter
        (fun word => word.length > 2 && !promptStopWords.contains word))

/-- Value of the local `searchQuery` after the fallback step
(`if (!searchQuery.trim()) searchQuery = 'developer'`). -/
def searchQueryOf (prompt : String) : String :=
  if jsTrim (rawSearchQuery prompt) = "" then "developer" else rawSearchQuery prompt

/-- Embedding of the route's `parseGitHubQuery` (lines 614–715).  The `rnd`
argument threads the `Math.random` stream available to the JS execution; this
version of the parser never draws from it, so the definition ignores it
exactly as the source does. -/
def parseGitHubQuery (prompt : String) (_rnd : Fin 3) : GHQuery :=
  { searchQuery := searchQueryOf prompt
    filters :=
      (if hasActivityKeyword prompt then ["repos:>1", "followers:>10"] else [])
        ++ (if experienceLevel prompt = "senior" ∨ experienceLevel prompt = "experienced" ∨
              experienceLevel prompt = "expert" then
              ["repos:>5", "followers:>50"]
            else [])
        ++ (if searchQueryOf prompt ≠ "" then ["in:bio " ++ searchQueryOf prompt] else [])
    sortBy := if hasActivityKeyword prompt then "repositories" else "followers" }

/-- Profile-building loop of the route's `scrapeGitHubWithAPI` (lines
232–282): skip organisations (on the search item and on the detailed user),
skip bio-less users with fewer than one public repo (a missing
`public_repos` compares as `undefined < 1 = false` in JS, hence the `none`
branch below), push a profile, and break once `limit` is reached.  `detail`
is the per-user `/users/:login` fetch; `none` models a non-ok or thrown
fetch, after which the code falls back to the search item itself. -/
def apiLoop (detail : GHUser → Option GHUser) (ctx : Ctx) (limit : ℕ) :
    List GHUser → List Profile → List Profile
  | [], acc => acc
  | u :: rest, acc =>
    if u.type == "Organization" then apiLoop detail ctx limit rest acc
    else
      let userData := (detail u).getD u
      if userData.type == "Organization" then apiLoop detail ctx limit rest acc
      else if !jsTruthyStr userData.bio &&
          (match userData.public_repos with
           | some n => decide (n < 1)
           | none => false) then
        apiLoop detail ctx limit rest acc
      else
        let profile : Profile :=
          { id := ctx.uuid acc.length
            name := jsOrStr userData.name u.login
            bio := some (jsOrStr userData.bio "Active GitHub developer")
            platform := .github
            username := some u.login
            tags := extractTags
              ((jsOrStr userData.bio "") ++ " " ++ u.login ++ " " ++ (jsOrStr userData.company ""))
            score := 0.7
            last_updated := ctx.now
            fit_summary := none
            profile_url := some (jsOrStr userData.html_url ("https://github.com/" ++ u.login))
            created_at := ctx.now
            updated_at := ctx.now }
        let acc2 := acc ++ [profile]
        if limit ≤ acc2.length then acc2 else apiLoop detail ctx limit rest acc2

/-- Embedding of the route's `scrapeGitHubWithAPI` (lines 187–288): a non-ok
response — including 401/403 — logs and returns the empty list, the same
observable value a successful search with zero hits produces. -/
def scrapeGitHubWithAPI (resp : GHResp) (detail : GHUser → Option GHUser)
    (ctx : Ctx) (limit : ℕ) : List Profile :=
  match resp with
  | .err _ _ _ => []
  | .ok items => apiLoop detail ctx limit items []

/-- Embedding of the route's `analyzeProfileWithGroq` (lines 468–549): with no
API key, or on any caught failure, return the canned
`Profile matches <query> criteria` result with the fixed score `0.7`; on a
parsed reply take each field with a `||` fallback — note that the score is
written through unclamped. -/
def analyzeProfileWithGroq (apiKeyPresent : Bool) (query : String) (p : Profile)
    (outcome : GroqOutcome) : EnrichedAnalysis :=
  if !apiKeyPresent then
    { fitSummary := "Profile matches " ++ query ++ " criteria", score := 0.7, tags := p.tags }
  else
    match outcome with
    | .fail _ =>
      { fitSummary := "Profile matches " ++ query ++ " criteria", score := 0.7, tags := p.tags }
    | .parsed a =>
      { fitSummary := jsOrStr a.fitSummary ("Profile matches " ++ query ++ " criteria")
        score := jsOrNum a.score 0.7
        tags := a.tags.getD p.tags }

end OnDemandRoute

/-! ## First part_005 document (`src/unnamed/part_005`, lines 1–606) -/

namespace PartFive

/-- Exit-path model of the part_005 `scrapeProfiles` (lines 56–118 and
694–768): identical control flow to the route version except that the browser
is closed in a `finally` block guarded by `if (browser)`, so an inner throw
still closes the session; a failed launch leaves no session to close. -/
def scrapeProfiles (launch : Except String Unit)
    (inner : Except String (List Profile)) : OnDemandRoute.ScrapeRun :=
  match launch with
  | .error e =>
    { result := .error ("Scraping failed: " ++ e), browserLaunched := false, browserClosed := false }
  | .ok _ =>
    match inner with
    | .ok ps => { result := .ok ps, browserLaunched := true, browserClosed := true }
    | .error e =>
      { result := .error ("Scraping failed: " ++ e), browserLaunched := true, browserClosed := true }

/-- Stop-word set of the part_005 `extractTags`. -/
def commonWords : List String :=
  ["a", "an", "the", "and", "or", "in", "on", "at", "to", "for", "with", "by",
   "as", "i", "you", "he", "she", "it", "we", "they"]

/-- Character class kept by `replace(/[^a-z0-9#+\-.]/g, ' ')`. -/
def allowedChar (c : Char) : Bool :=
  ('a' ≤ c && c ≤ 'z') || ('0' ≤ c && c ≤ '9') || c = '#' || c = '+' || c = '-' || c = '.'

/-- The `words` list of the part_005 `extractTags` (lines 512–516): lowercase,
replace disallowed characters by spaces, split, and drop one-character words,
stop words and all-digit words. -/
def wordsOf (text : String) : List String :=
  (((splitRuns (fun c => c = ' ')
      ((jsToLower text).data.map (fun c => if allowedChar c then c else ' ')) []).map
    String.mk).filter
    (fun word =>
      word.length > 1 && !commonWords.contains word &&
        !(decide (word.length > 0) && word.data.all (fun c => '0' ≤ c && c ≤ '9'))))

/-- The `potentialTags` list (lines 519–524). -/
def potentialTags (text : String) : List String :=
  (wordsOf text).filter
    (fun word =>
      word.data.contains '#' || word.data.contains '+' || word.data.contains '.' ||
        (decide (2 ≤ word.length) && decide (word.length ≤ 20) &&
          word.data.all (fun c => ('a' ≤ c && c ≤ 'z') || ('A' ≤ c && c ≤ 'Z'))))

/-- Number of occurrences of a candidate tag (the `tagCounts` object). -/
def tagCount (text : String) (t : String) : ℕ := (potentialTags text).count t

/-- Embedding of the part_005 `extractTags` (lines 507–535): `Object.keys` of
the frequency table (first-occurrence order, no key is array-index-like since
all-digit words were dropped), stably sorted by descending count, first 10. -/
def extractTags (text : String) : List String :=
  if text = "" then []
  else
    ((firstDedup (potentialTags text)).mergeSort
      (fun a b => decide (tagCount text b ≤ tagCount text a))).take 10

/-- Role vocabulary of the part_005 `parseGitHubQuery`. -/
def roleKeywords : List String :=
  ["software engineer", "developer", "designer", "data scientist", "product manager", "founder"]

/-- Technology vocabulary of the part_005 `parseGitHubQuery`. -/
def techKeywords : List String :=
  ["react", "python", "typescript", "node.js", "ai", "machine learning", "devops"]

/-- The `activityKeywords` object, in insertion order: sort key paired with
its trigger phrases. -/
def activityTable : List (String × List String) :=
  [("followers", ["popular", "well-known", "influential"]),
   ("repositories", ["prolific", "active developer", "many projects", "many repos"]),
   ("joined", ["new user", "recently joined", "new to github"])]

/-- The `sortOptions` array used for the random draw. -/
def sortOptions : List String := ["followers", "repositories", "joined"]

/-- First activity category whose phrase list matches the lowercased prompt
(the `for ... of Object.entries` loop with `break`). -/
def activitySortKey (prompt : String) : Option String :=
  (activityTable.find? (fun kv => kv.2.any (fun k => jsIncludes (jsToLower prompt) k))).map
    (fun kv => kv.1)

/-- Whether some activity phrase matched (the `hasActivity` flag). -/
def hasActivityKeyword (prompt : String) : Bool := (activitySortKey prompt).isSome

/-- Return shape of the part_005 `parseGitHubQuery` (the returned object also
carries `finalQuery`). -/
structure GHQuery where
  searchQuery : String
  filters : List String
  sortBy : String
  finalQuery : String
deriving DecidableEq

/-- Role and technology keywords detected in the lowercased prompt, in
vocabulary order. -/
def detectedKeywords (prompt : String) : List String :=
  (roleKeywords ++ techKeywords).filter (fun k => jsIncludes (jsToLower prompt) k)

/-- The `filters` array: one `in:bio` clause per detected keyword, or a single
clause carrying the raw prompt when none matched. -/
def filtersOf (prompt : String) : List String :=
  if (detectedKeywords prompt).length > 0 then
    (detectedKeywords prompt).map (fun k => "in:bio " ++ k)
  else ["in:bio " ++ prompt]

/-- Embedding of the part_005 `parseGitHubQuery` (lines 538–606): keywords are
matched by substring, the sort key comes from the activity table or — when no
activity phrase matched — from `sortOptions[Math.floor(Math.random() * 3)]`,
modelled by the draw `rnd` (`searchQuery` is `detectedKeywords.join(' ') ||
prompt`). -/
def parseGitHubQuery (prompt : String) (rnd : Fin 3) : GHQuery :=
  { searchQuery :=
      if String.intercalate " " (detectedKeywords prompt) = "" then prompt
      else String.intercalate " " (detectedKeywords prompt)
    filters := filtersOf prompt
    sortBy :=
      match activitySortKey prompt with
      | some k => k
      | none => sortOptions.get (Fin.cast rfl rnd)
    finalQuery := String.intercalate " " (filtersOf prompt) }

/-- Embedding of the part_005 `analyzeProfileWithGroq` (lines 412–479, same in
both documents): throws when the API key is absent, re-throws any caught
failure, throws on a reply missing one of the three typed fields, and clamps
the accepted score into `[0, 1]` (`Math.max(0, Math.min(1, result.score))`). -/
def analyzeProfileWithGroq (apiKeyPresent : Bool) (outcome : GroqOutcome) :
    Except String EnrichedAnalysis :=
  if !apiKeyPresent then .error "GROQ_API_KEY is not set"
  else
    match outcome with
    | .fail e => .error e
    | .parsed a =>
      match a.fitSummary, a.score, a.tags with
      | some fs, some s, some tags =>
        .ok { fitSummary := fs, score := max 0 (min 1 s), tags := tags }
      | _, _, _ => .error "Invalid JSON structure from AI analysis"

end PartFive

/-! ## Second part_005 document (`src/unnamed/part_005`, lines 607–1345) -/

namespace PartFiveV2

/-- Profile-building loop of the v2 `scrapeGitHubWithAPI` (lines 899–943):
check the limit at the top of each iteration, skip organisations, skip users
whose detail fetch fails, and push a profile.  `user.bio || '' + ...` binds as
`user.bio || ('' + ' ' + user.login + ' ' + (user.name || ''))` in JS, which
`jsOrStr` reproduces. -/
def apiLoop (detail : GHUser → Option GHUser) (ctx : Ctx) (limit : ℕ) :
    List GHUser → List Profile → List Profile
  | [], acc => acc
  | item :: rest, acc =>
    if limit ≤ acc.length then acc
    else if item.type == "Organization" then apiLoop detail ctx limit rest acc
    else
      match detail item with
      | none => apiLoop detail ctx limit rest acc
      | some user =>
        let profile : Profile :=
          { id := ctx.uuid acc.length
            name := jsOrStr user.name item.login
            bio := some (jsOrStr user.bio "A developer on GitHub.")
            platform := .github
            tags := PartFive.extractTags
              (jsOrStr user.bio (" " ++ item.login ++ " " ++ jsOrStr user.name ""))
            score := 0.8
            last_updated := ctx.now
            fit_summary := none
            profile_url := user.html_url
            created_at := ctx.now
            updated_at := ctx.now
            avatar_url := user.avatar_url
            followers := user.followers
            following := user.following
            location := user.location
            public_repos := user.public_repos }
        apiLoop detail ctx limit rest (acc ++ [profile])

/-- Embedding of the v2 `scrapeGitHubWithAPI` (lines 844–948): with no token
it returns the empty list; a non-ok response throws a typed message — 401 and
403 each get a dedicated prefix — and the throw propagates (the `catch`
re-throws). -/
def scrapeGitHubWithAPI (tokenPresent : Bool) (resp : GHResp)
    (detail : GHUser → Option GHUser) (ctx : Ctx) (limit : ℕ) :
    Except String (List Profile) :=
  if !tokenPresent then .ok []
  else
    match resp with
    | .err status statusText body =>
      if status = 401 then
        .error ("GitHub API Unauthorized: Token may be invalid or expired. Status: "
          ++ toString status ++ ", Body: " ++ body)
      else if status = 403 then
        .error ("GitHub API Forbidden: Rate limit exceeded or insufficient permissions. Status: "
          ++ toString status ++ ", Body: " ++ body)
      else
        .error ("GitHub API Error: " ++ toString status ++ " " ++ statusText
          ++ ". Body: " ++ body)
    | .ok items => .ok (apiLoop detail ctx limit items [])

/-- Error-to-status mapping of the v2 POST handler (lines 668–688): a message
containing `GitHub API Unauthorized` or `Unauthorized` is surfaced as HTTP
401, anything else as HTTP 500. -/
def postScrapeStatus (errorMessage : String) : ℕ :=
  if jsIncludes errorMessage "GitHub API Unauthorized" || jsIncludes errorMessage "Unauthorized"
  then 401 else 500

end PartFiveV2

/-! ## Profile-analysis route (second document of
`src/app/api/generate-leads/route.ts`) -/

namespace ProfileAnalysis

/-- Embedding of `calculateFallbackScore` (lines 427–445): base `0.5`, plus
the ratio of company-DNA words longer than 3 characters found in the bio times
`0.3`, plus the ratio of profile tags found in the company DNA times `0.2`,
capped at `1.0`. -/
def calculateFallbackScore (p : Profile) (companyDNA : String) : ℚ :=
  let dna := jsToLower companyDNA
  let bio := jsToLower (jsOrStr p.bio "")
  let dnaWords := (jsSplitChar ' ' dna).filter (fun word => word.length > 3)
  let matchingWords := dnaWords.filter (fun word => jsIncludes bio word)
  let score1 := (0.5 : ℚ) +
    ((matchingWords.length : ℚ) / ((max dnaWords.length 1 : ℕ) : ℚ)) * 0.3
  let matchingTags := p.tags.filter (fun tag => jsIncludes dna (jsToLower tag))
  let score2 := score1 +
    ((matchingTags.length : ℚ) / ((max p.tags.length 1 : ℕ) : ℚ)) * 0.2
  min score2 1.0

/-- Vocabulary of `extractFallbackTags` (the same 44-entry literal as the
matcher's `commonTags`). -/
def commonTags : List String :=
  ["javascript", "typescript", "react", "node", "python", "ai", "ml",
   "startup", "tech", "developer", "entrepreneur", "writer", "designer",
   "product", "marketing", "growth", "saas", "open source", "blockchain",
   "web3", "data", "analytics", "mobile", "ios", "android", "fullstack",
   "frontend", "backend", "devops", "cloud", "aws", "gcp", "azure",
   "fintech", "healthtech", "edtech", "ecommerce", "social", "media",
   "content", "creator", "influencer", "consultant", "freelancer"]

/-- Embedding of `extractFallbackTags` (lines 450–472): a `Set` seeded with
the profile tags, extended by every vocabulary tag contained in the lowercased
company DNA and not already present, iterated in insertion order, first 10.
(The vocabulary entries are pairwise distinct, so checking membership against
the seed set alone is equivalent to checking against the growing set.) -/
def extractFallbackTags (p : Profile) (companyDNA : String) : List String :=
  let dna := jsToLower companyDNA
  let base := firstDedup p.tags
  (base ++ commonTags.filter (fun tag => jsIncludes dna tag && !base.contains tag)).take 10

/-- Outcome of the Groq call of `analyzeProfileWithAI`: `ok` carries the
payload parsed from the reply, `fail` any caught failure (network error,
empty reply, `JSON.parse` throw). -/
inductive AIOutcome
  | ok (a : GroqAnalysis)
  | fail (e : String)

/-- Extra shape of the profile-analysis reply: it also carries `enhancedTags`
and `reasoning`. -/
structure ParsedAnalysis where
  score : Option ℚ := none
  fitSummary : Option String := none
  enhancedTags : Option (List String) := none
  reasoning : Option String := none
deriving DecidableEq

/-- Outcome of the Groq call with the profile-analysis payload shape. -/
inductive AnalysisOutcome
  | ok (a : ParsedAnalysis)
  | fail (e : String)

/-- Return shape of `analyzeProfileWithAI`. -/
structure AnalysisResult where
  score : ℚ
  fitSummary : String
  enhancedTags : List String
  reasoning : String
deriving DecidableEq

/-- Embedding of `analyzeProfileWithAI` (lines 336–422): a parsed reply is
sanitised field by field (the score through
`Math.max(0, Math.min(1, analysis.score || 0.5))`), and any caught failure
falls back to the deterministic local heuristic with the canned
strong/moderate/some sentence — the function is total, so an enrichment
failure never propagates. -/
def analyzeProfileWithAI (p : Profile) (companyDNA : String)
    (outcome : AnalysisOutcome) : AnalysisResult :=
  match outcome with
  | .ok a =>
    { score := max 0 (min 1 (jsOrNum a.score 0.5))
      fitSummary := jsOrStr a.fitSummary "Profile shows potential alignment with company needs."
      enhancedTags :=
        match a.enhancedTags with
        | some tags => tags.take 10
        | none => p.tags
      reasoning := jsOrStr a.reasoning "Analysis completed based on profile information." }
  | .fail _ =>
    let fallbackScore := calculateFallbackScore p companyDNA
    { score := fallbackScore
      fitSummary := "Profile shows "
        ++ (if (0.7 : ℚ) ≤ fallbackScore then "strong"
            else if (0.5 : ℚ) ≤ fallbackScore then "moderate" else "some")
        ++ " potential alignment with your company's focus."
      enhancedTags := extractFallbackTags p companyDNA
      reasoning := "Analysis completed using fallback scoring method due to AI service unavailability." }

/-- Fallback formula exactly as the specification (§4.5) and claim C6 word it:
base `0.5` plus the shared-significant-word ratio weighted `0.3` plus the
shared-tag ratio weighted `0.2` — with no cap. -/
def specFallbackScore (p : Profile) (companyDNA : String) : ℚ :=
  let dna := jsToLower companyDNA
  let bio := jsToLower (jsOrStr p.bio "")
  let dnaWords := (jsSplitChar ' ' dna).filter (fun word => word.length > 3)
  (0.5 : ℚ)
    + ((dnaWords.filter (fun word => jsIncludes bio word)).length : ℚ)
        / ((max dnaWords.length 1 : ℕ) : ℚ) * 0.3
    + ((p.tags.filter (fun tag => jsIncludes dna (jsToLower tag))).length : ℚ)
        / ((max p.tags.length 1 : ℕ) : ℚ) * 0.2

end ProfileAnalysis

/-! ## Concrete fixtures shared by the instantiated theorems below -/

/-- Concrete profile used to instantiate hypothesis-bearing theorems. -/
def sampleProfile : Profile :=
  { id := "p-1", name := "Ada", bio := some "pythonista", platform := .github,
    tags := [], score := 0.5, last_updated := 0, fit_summary := none, profile_url := none }

/-- Detail-fetch oracle on which every per-user lookup fails. -/
def noDetail : GHUser → Option GHUser := fun _ => none

/-- Concrete ambient context. -/
def sampleCtx : Ctx := { uuid := fun _ => "uuid-0", now := 0 }

/-- C1, amended.  `calculateMatchScore` caps its score at `1.0` but has
no lower clamp: the score is nonnegative only under the extra assumptions
that the vector-similarity contribution and the profile's stored score are
nonnegative.  The on-demand-scrape enrichment writes the parsed LLM score
through unclamped (falling back to `0.7` when the score is absent, zero or
the call failed), so its output lies in `[0,1]` exactly when the parsed value
does; the part_005 enrichment clamps every accepted score into `[0,1]`. -/
theorem c1_score_clamping_amended :
    (∀ (companyDNA : String) (p : Profile) (ce pe : Option (List ℚ)) (now : ℚ),
      (Matcher.calculateMatchScore companyDNA p ce pe now).score ≤ 1) ∧
    (∀ (companyDNA : String) (p : Profile) (ce pe : Option (List ℚ)) (now : ℚ),
      0 ≤ Matcher.vectorContribution p ce pe → 0 ≤ p.score →
      0 ≤ (Matcher.calculateMatchScore companyDNA p ce pe now).score) ∧
    (∀ (query : String) (p : Profile) (a : GroqAnalysis),
      (∀ s, a.score = some s → 0 ≤ s ∧ s ≤ 1) →
      0 ≤ (OnDemandRoute.analyzeProfileWithGroq true query p (.parsed a)).score ∧
      (OnDemandRoute.analyzeProfileWithGroq true query p (.parsed a)).score ≤ 1) ∧
    (∀ (apiKeyPresent : Bool) (outcome : GroqOutcome) (r : EnrichedAnalysis),
      PartFive.analyzeProfileWithGroq apiKeyPresent outcome = .ok r →
      0 ≤ r.score ∧ r.score ≤ 1) := by
  refine ⟨?_, ?_, ?_, ?_⟩
  · intro companyDNA p ce pe now
    simp only [Matcher.calculateMatchScore]
    exact min_le_right _ _
  · intro companyDNA p ce pe now hv hs
    simp only [Matcher.calculateMatchScore]
    refine le_min ?_ (by norm_num)
    have t1 : (0 : ℝ) ≤
        ((Matcher.calculateTagMatch companyDNA p.tags).score : ℝ) * (Matcher.WEIGHTS.tagMatch : ℝ) := by
      refine mul_nonneg ?_ (by norm_num [Matcher.WEIGHTS])
      exact_mod_cast Matcher.tagMatch_score_nonneg companyDNA p.tags
    have t2 : (0 : ℝ) ≤
        ((Matcher.calculateBioSimilarity companyDNA (jsOrStr p.bio "")) : ℝ) *
          (Matcher.WEIGHTS.bioSimilarity : ℝ) := by
      refine mul_nonneg ?_ (by norm_num [Matcher.WEIGHTS])
      exact_mod_cast Matcher.bioSimilarity_nonneg companyDNA (jsOrStr p.bio "")
    have t4 : (0 : ℝ) ≤
        ((Matcher.calculatePlatformRelevance companyDNA p.platform) : ℝ) *
          (Matcher.WEIGHTS.platformRelevance : ℝ) := by
      refine mul_nonneg ?_ (by norm_num [Matcher.WEIGHTS])
      exact_mod_cast Matcher.platformRelevance_nonneg companyDNA p.platform
    have t5 : (0 : ℝ) ≤
        ((Matcher.calculateRecencyScore p.last_updated now) : ℝ) * (Matcher.WEIGHTS.recency : ℝ) := by
      refine mul_nonneg ?_ (by norm_num [Matcher.WEIGHTS])
      exact_mod_cast Matcher.recencyScore_nonneg p.last_updated now
    have t6 : (0 : ℝ) ≤ (p.score : ℝ) * 0.2 := by
      refine mul_nonneg ?_ (by norm_num)
      exact_mod_cast hs
    linarith [hv, t1, t2, t4, t5, t6]
  · intro query p a h
    have hscore : (OnDemandRoute.analyzeProfileWithGroq true query p (.parsed a)).score =
        jsOrNum a.score 0.7 := by
      simp [OnDemandRoute.analyzeProfileWithGroq]
    rw [hscore]
    rcases ha : a.score with _ | s
    · constructor <;> norm_num [jsOrNum]
    · by_cases hz : s = 0
      · constructor <;> norm_num [jsOrNum, hz]
      · have hb := h s ha
        constructor
        · simpa [jsOrNum, hz] using hb.1
        · simpa [jsOrNum, hz] using hb.2
  · intro apiKeyPresent outcome r h
    cases apiKeyPresent with
    | false => simp [PartFive.analyzeProfileWithGroq] at h
    | true =>
      cases outcome with
      | fail e => simp [PartFive.analyzeProfileWithGroq] at h
      | parsed a =>
        rcases a with ⟨fs, s, tags⟩
        rcases fs with _ | fs <;> rcases s with _ | s <;> rcases tags with _ | tags <;>
          simp [PartFive.analyzeProfileWithGroq] at h
        rw [← h]
        constructor
        · exact le_max_left 0 _
        · exact max_le (by norm_num) (min_le_left _ _)

/-- Witness for C1: with no company embedding the vector contribution is zero
and the sample profile's stored score is nonnegative, so the amended bound
instantiates. -/
theorem c1_score_clamping_witness :
    0 ≤ Matcher.vectorContribution sampleProfile none none ∧
    (0 : ℚ) ≤ sampleProfile.score ∧
    0 ≤ (Matcher.calculateMatchScore "tech startup" sampleProfile none none 0).score := by
  have h1 : 0 ≤ Matcher.vectorContribution sampleProfile none none := by
    simp [Matcher.vectorContribution]
  have h2 : (0 : ℚ) ≤ sampleProfile.score := by norm_num [sampleProfile]
  exact ⟨h1, h2, c1_score_clamping_amended.2.1 "tech startup" sampleProfile none none 0 h1 h2⟩

/-- Counterexample for C1 as stated: the on-demand-scrape enrichment step
stores the parsed LLM score `1.5` without clamping, leaving the enriched
profile score outside `[0, 1]`. -/
theorem c1_score_clamping_counterexample :
    (OnDemandRoute.analyzeProfileWithGroq true "react developer" sampleProfile
      (.parsed { fitSummary := some "strong fit", score := some 1.5, tags := some [] })).score
        = 1.5 ∧
    ¬ (OnDemandRoute.analyzeProfileWithGroq true "react developer" sampleProfile
      (.parsed { fitSummary := some "strong fit", score := some 1.5, tags := some [] })).score
        ≤ 1 := by
  constructor <;> norm_num [OnDemandRoute.analyzeProfileWithGroq, jsOrNum]

/-- C2, code bug.  In `src/app/api/on-demand-scrape/route.ts` the browser
launched by `scrapeProfiles` is closed only on the success path: when the
platform scraper throws after a successful launch, the `catch` re-throws
without closing and the session leaks.  The part_005 variant of the same
function closes the session in a `finally` block on every path on which it was
opened. -/
theorem c2_browser_close_on_exit :
    (OnDemandRoute.scrapeProfiles (.ok ()) (.error "net timeout")).browserLaunched = true ∧
    (OnDemandRoute.scrapeProfiles (.ok ()) (.error "net timeout")).browserClosed = false ∧
    (OnDemandRoute.scrapeProfiles (.ok ()) (.ok [])).browserClosed = true ∧
    (∀ (launch : Except String Unit) (inner : Except String (List Profile)),
      (PartFive.scrapeProfiles launch inner).browserClosed =
        (PartFive.scrapeProfiles launch inner).browserLaunched) := by
  refine ⟨rfl, rfl, rfl, ?_⟩
  intro launch inner
  cases launch <;> cases inner <;> rfl

/-- C5, code bug.  The route's `scrapeGitHubWithAPI` maps a 401
authentication failure to the plain empty list — observationally identical to
a successful search that found nothing — while the part_005 v2 variant throws
a dedicated message which the POST handler surfaces as HTTP 401. -/
theorem c5_auth_failure_indistinct :
    OnDemandRoute.scrapeGitHubWithAPI (.err 401 "Unauthorized" "Bad credentials")
      noDetail sampleCtx 10 = [] ∧
    OnDemandRoute.scrapeGitHubWithAPI (.ok []) noDetail sampleCtx 10 = [] ∧
    PartFiveV2.scrapeGitHubWithAPI true (.err 401 "Unauthorized" "Bad credentials")
      noDetail sampleCtx 10 =
      .error "GitHub API Unauthorized: Token may be invalid or expired. Status: 401, Body: Bad credentials" ∧
    PartFiveV2.scrapeGitHubWithAPI true (.ok []) noDetail sampleCtx 10 = .ok [] ∧
    PartFiveV2.postScrapeStatus
      "GitHub API Unauthorized: Token may be invalid or expired. Status: 401, Body: Bad credentials"
      = 401 := by
  refine ⟨rfl, rfl, ?_, rfl, by decide⟩
  rfl

/-- C6, amended.  The fallback path of the profile-analysis enrichment
never propagates the failure and produces exactly the deterministic heuristic
the claim describes — whose cap at `1.0` never binds, so the score equals the
uncapped spec formula — together with the canned strong/moderate/some
sentence; the on-demand-scrape enrichment also never propagates a failure,
but its fallback is the fixed score `0.7` with the canned
`Profile matches <query> criteria` sentence and unchanged tags. -/
theorem c6_enrichment_fallback_amended :
    (∀ (p : Profile) (companyDNA : String),
      ProfileAnalysis.calculateFallbackScore p companyDNA =
        ProfileAnalysis.specFallbackScore p companyDNA) ∧
    (∀ (p : Profile) (companyDNA e : String),
      ProfileAnalysis.analyzeProfileWithAI p companyDNA (.fail e) =
        { score := ProfileAnalysis.calculateFallbackScore p companyDNA
          fitSummary := "Profile shows "
            ++ (if (0.7 : ℚ) ≤ ProfileAnalysis.calculateFallbackScore p companyDNA then "strong"
                else if (0.5 : ℚ) ≤ ProfileAnalysis.calculateFallbackScore p companyDNA then
                  "moderate"
                else "some")
            ++ " potential alignment with your company's focus."
          enhancedTags := ProfileAnalysis.extractFallbackTags p companyDNA
          reasoning :=
            "Analysis completed using fallback scoring method due to AI service unavailability." }) ∧
    (∀ (query : String) (p : Profile) (e : String),
      OnDemandRoute.analyzeProfileWithGroq true query p (.fail e) =
        { fitSummary := "Profile matches " ++ query ++ " criteria"
          score := 0.7
          tags := p.tags }) := by
  refine ⟨?_, ?_, ?_⟩
  · intro p companyDNA
    unfold ProfileAnalysis.calculateFallbackScore ProfileAnalysis.specFallbackScore
    dsimp only
    apply min_eq_left
    have hw : ((((jsSplitChar ' ' (jsToLower companyDNA)).filter
        (fun word => word.length > 3)).filter
          (fun word => jsIncludes (jsToLower (jsOrStr p.bio "")) word)).length : ℚ) /
        ((max ((jsSplitChar ' ' (jsToLower companyDNA)).filter
          (fun word => word.length > 3)).length 1 : ℕ) : ℚ) ≤ 1 := by
      refine div_le_one_of_le₀ ?_ (by positivity)
      exact_mod_cast le_trans (List.length_filter_le _ _) (le_max_left _ 1)
    have hw0 : (0 : ℚ) ≤ ((((jsSplitChar ' ' (jsToLower companyDNA)).filter
        (fun word => word.length > 3)).filter
          (fun word => jsIncludes (jsToLower (jsOrStr p.bio "")) word)).length : ℚ) /
        ((max ((jsSplitChar ' ' (jsToLower companyDNA)).filter
          (fun word => word.length > 3)).length 1 : ℕ) : ℚ) := by positivity
    have ht : (((p.tags.filter
        (fun tag => jsIncludes (jsToLower companyDNA) (jsToLower tag))).length : ℚ)) /
        ((max p.tags.length 1 : ℕ) : ℚ) ≤ 1 := by
      refine div_le_one_of_le₀ ?_ (by positivity)
      exact_mod_cast le_trans (List.length_filter_le _ _) (le_max_left _ 1)
    have ht0 : (0 : ℚ) ≤ (((p.tags.filter
        (fun tag => jsIncludes (jsToLower companyDNA) (jsToLower tag))).length : ℚ)) /
        ((max p.tags.length 1 : ℕ) : ℚ) := by positivity
    nlinarith [hw, hw0, ht, ht0]
  · intro p companyDNA e
    rfl
  · intro query p e
    rfl

/-- Counterexample for C6 as stated: on an enrichment failure the
on-demand-scrape step stores the fixed score `0.7`, not the `0.5`-based
lexical-overlap heuristic, which evaluates to `0.5` on the same inputs. -/
theorem c6_enrichment_fallback_counterexample :
    (OnDemandRoute.analyzeProfileWithGroq true "abcde" sampleProfile
      (.fail "network error")).score = 0.7 ∧
    ProfileAnalysis.calculateFallbackScore sampleProfile "abcde" = 0.5 ∧
    (0.7 : ℚ) ≠ 0.5 := by
  refine ⟨rfl, ?_, by norm_num⟩
  have h1 : (jsSplitChar ' ' (jsToLower "abcde")).filter (fun word => word.length > 3)
      = ["abcde"] := by decide
  have h2 : (["abcde"] : List String).filter
      (fun word => jsIncludes (jsToLower (jsOrStr sampleProfile.bio "")) word) = [] := by
    decide
  unfold ProfileAnalysis.calculateFallbackScore
  dsimp only
  rw [h1, h2]
  simp only [sampleProfile, List.filter_nil, List.length_nil, List.length_cons,
    List.length_nil, Nat.cast_zero, Nat.cast_one]
  norm_num [min_def]

/-- C7, amended.  The part_005 parser behaves as the claim states: with
an activity phrase present the sort key is the deterministic image of the
fixed category table (independent of the random draw), and without one it is
drawn pseudo-randomly from `{followers, repositories, joined}`, so different
draws yield different keys.  The on-demand-scrape route parser, however, is
fully deterministic: `repositories` when an activity keyword occurs, else
always `followers`. -/
theorem c7_sort_preference_amended :
    (∀ (prompt : String) (r : Fin 3),
      PartFive.hasActivityKeyword prompt = true →
      (PartFive.parseGitHubQuery prompt r).sortBy =
        (PartFive.activitySortKey prompt).getD "followers") ∧
    (∀ (prompt : String),
      PartFive.hasActivityKeyword prompt = false →
      (PartFive.parseGitHubQuery prompt 0).sortBy = "followers" ∧
      (PartFive.parseGitHubQuery prompt 1).sortBy = "repositories" ∧
      (PartFive.parseGitHubQuery prompt 2).sortBy = "joined") ∧
    (∀ (prompt : String) (r : Fin 3),
      (OnDemandRoute.parseGitHubQuery prompt r).sortBy =
        if OnDemandRoute.hasActivityKeyword prompt then "repositories" else "followers") := by
  refine ⟨?_, ?_, ?_⟩
  · intro prompt r h
    rcases hk : PartFive.activitySortKey prompt with _ | k
    · rw [PartFive.hasActivityKeyword, hk] at h
      simp at h
    · simp [PartFive.parseGitHubQuery, hk]
  · intro prompt h
    rcases hk : PartFive.activitySortKey prompt with _ | k
    · refine ⟨?_, ?_, ?_⟩ <;> simp [PartFive.parseGitHubQuery, hk] <;> rfl
    · rw [PartFive.hasActivityKeyword, hk] at h
      simp at h
  · intro prompt r
    by_cases ha : OnDemandRoute.hasActivityKeyword prompt <;>
      simp [OnDemandRoute.parseGitHubQuery, ha]

/-- Witness for C7: `"prolific coder"` carries an activity phrase and maps
deterministically to `repositories`; `"hello world"` carries none and the
third random draw yields `joined`. -/
theorem c7_sort_preference_witness :
    PartFive.hasActivityKeyword "prolific coder" = true ∧
    (PartFive.parseGitHubQuery "prolific coder" 0).sortBy = "repositories" ∧
    PartFive.hasActivityKeyword "hello world" = false ∧
    (PartFive.parseGitHubQuery "hello world" 2).sortBy = "joined" := by
  have h1 : PartFive.hasActivityKeyword "prolific coder" = true := by decide
  have h2 : PartFive.hasActivityKeyword "hello world" = false := by decide
  refine ⟨h1, ?_, h2, (c7_sort_preference_amended.2.1 "hello world" h2).2.2⟩
  rw [c7_sort_preference_amended.1 "prolific coder" 0 h1]
  decide

/-- Counterexample for C7 as stated: `"hello world"` contains no activity
keyword, yet the route parser returns `followers` under every possible random
draw — the sort key is not chosen pseudo-randomly there. -/
theorem c7_sort_preference_counterexample :
    (OnDemandRoute.parseGitHubQuery "hello world" 0).sortBy = "followers" ∧
    (OnDemandRoute.parseGitHubQuery "hello world" 1).sortBy = "followers" ∧
    (OnDemandRoute.parseGitHubQuery "hello world" 2).sortBy = "followers" := by
  refine ⟨?_, ?_, ?_⟩ <;> decide

/-- C8, amended.  The two adapter copies of `extractTags` return at most
10 pairwise-distinct tags (all three copies are pure Lean functions, so
determinism is immediate); the part_005 copy additionally orders its output by
non-increasing frequency (stable sort, first-occurrence tie-break); the
matcher copy returns the distinct vocabulary hits in fixed vocabulary order
with no bound on their number. -/
theorem c8_extract_tags_amended :
    (∀ text : String,
      (PartFive.extractTags text).length ≤ 10 ∧
      (PartFive.extractTags text).Nodup ∧
      (PartFive.extractTags text).Pairwise
        (fun a b => PartFive.tagCount text b ≤ PartFive.tagCount text a)) ∧
    (∀ text : String,
      (OnDemandRoute.extractTags text).length ≤ 10 ∧
      (OnDemandRoute.extractTags text).Nodup) ∧
    (∀ text : String,
      Matcher.extractTags text =
        Matcher.commonTags.filter (fun tag => jsIncludes (jsToLower text) tag) ∧
      (Matcher.extractTags text).Nodup) := by
  refine ⟨?_, ?_, ?_⟩
  · intro text
    unfold PartFive.extractTags
    split
    · simp
    · refine ⟨?_, ?_, ?_⟩
      · simp only [List.length_take]
        exact min_le_left _ _
      · have hnd : (firstDedup (PartFive.potentialTags text)).Nodup :=
          nodup_firstDedup _
        have hperm := List.mergeSort_perm (firstDedup (PartFive.potentialTags text))
          (fun a b => decide (PartFive.tagCount text b ≤ PartFive.tagCount text a))
        exact (hperm.symm.nodup hnd).sublist (List.take_sublist _ _)
      · have hs := @List.sorted_mergeSort String
          (fun a b => decide (PartFive.tagCount text b ≤ PartFive.tagCount text a))
          (fun a b c hab hbc => by
            simp only [decide_eq_true_eq] at *
            exact le_trans hbc hab)
          (fun a b => by
            simpa using le_total (PartFive.tagCount text b) (PartFive.tagCount text a))
          (firstDedup (PartFive.potentialTags text))
        have hs' := hs.imp (fun h => by simpa using h)
        exact hs'.sublist (List.take_sublist _ _)
  · intro text
    refine ⟨?_, ?_⟩
    · simp only [OnDemandRoute.extractTags, List.length_take]
      exact min_le_left _ _
    · have hvoc : (OnDemandRoute.techKeywords.map OnDemandRoute.dashWs).Nodup := by decide
      have hsub : List.Sublist
          ((OnDemandRoute.techKeywords.filter
            (fun keyword => jsIncludes (jsToLower text) keyword)).map OnDemandRoute.dashWs)
          (OnDemandRoute.techKeywords.map OnDemandRoute.dashWs) :=
        (List.filter_sublist _).map _
      exact ((hvoc.sublist hsub).sublist (List.take_sublist _ _))
  · intro text
    refine ⟨rfl, ?_⟩
    have hvoc : Matcher.commonTags.Nodup := by decide
    exact hvoc.filter _

/-- Counterexample for C8 as stated: the matcher's `extractTags` has no
10-element bound — this 11-keyword text yields 11 tags. -/
theorem c8_extract_tags_counterexample :
    10 < (Matcher.extractTags
      "javascript typescript react node python ai ml startup tech developer entrepreneur").length := by
  decide

/-- C9, amended.  Both query parsers always return a non-empty `filters`
list.  On filler-only input the route parser degrades to the fixed default
keyword: `parseGitHubQuery("the a is").filters = ["in:bio developer"]`; the
part_005 parser instead falls back to the raw prompt as the single bio
filter. -/
theorem c9_filters_nonempty_amended :
    (∀ (prompt : String) (r : Fin 3), (OnDemandRoute.parseGitHubQuery prompt r).filters ≠ []) ∧
    (∀ (prompt : String) (r : Fin 3), (PartFive.parseGitHubQuery prompt r).filters ≠ []) ∧
    (OnDemandRoute.parseGitHubQuery "the a is" 0).filters = ["in:bio developer"] := by
  refine ⟨?_, ?_, by decide⟩
  · intro prompt r
    have hsq : OnDemandRoute.searchQueryOf prompt ≠ "" := by
      unfold OnDemandRoute.searchQueryOf
      split
      · intro h
        exact absurd h (by decide)
      · rename_i h
        intro he
        exact h (by rw [he]; rfl)
    simp only [OnDemandRoute.parseGitHubQuery]
    simp [hsq]
  · intro prompt r
    simp only [PartFive.parseGitHubQuery, PartFive.filtersOf]
    split
    · rename_i h
      simp only [ne_eq, List.map_eq_nil_iff]
      intro hc
      rw [hc] at h
      simp at h
    · simp

/-- Counterexample for C9 as stated: on the claim's own filler-only input the
part_005 parser produces a filter carrying the raw prompt, and no filter
contains the default keyword `developer`. -/
theorem c9_filters_counterexample :
    (PartFive.parseGitHubQuery "the a is" 0).filters = ["in:bio the a is"] ∧
    ((PartFive.parseGitHubQuery "the a is" 0).filters.all
      (fun f => !(jsIncludes f "developer"))) = true := by
  constructor <;> decide

/-- Concrete leads for the C3 witness: `dupFirst` and `dupRepeat` share the
natural key `("Sam", github)` under different ids. -/
def dupFirst : Profile :=
  { id := "a1", name := "Sam", bio := none, platform := .github, tags := [],
    score := 0.9, last_updated := 0, fit_summary := none, profile_url := none }

def dupOther : Profile :=
  { id := "b1", name := "Lee", bio := none, platform := .twitter, tags := [],
    score := 0.4, last_updated := 0, fit_summary := none, profile_url := none }

def dupRepeat : Profile :=
  { id := "a2", name := "Sam", bio := none, platform := .github, tags := [],
    score := 0.2, last_updated := 0, fit_summary := none, profile_url := none }

/-- Witness for C3: instantiating the aggregator theorem on a three-lead list
containing a duplicated natural key, with the membership hypothesis discharged
concretely. -/
theorem c3_aggregator_witness :
    dupFirst ∈ [dupFirst, dupOther, dupRepeat] ∧
    (GenerateLeads.uniqueLeads [dupFirst, dupOther, dupRepeat]).filter
        (fun y => GenerateLeads.keyEq y dupFirst) =
      ([dupFirst, dupOther, dupRepeat].find? (fun q => GenerateLeads.keyEq q dupFirst)).toList ∧
    (GenerateLeads.sortedLeads [dupFirst, dupOther, dupRepeat] 2).length ≤ 2 := by
  have hm : dupFirst ∈ [dupFirst, dupOther, dupRepeat] := by
    exact List.mem_cons_self _ _
  obtain ⟨h1, h2, h3, h4⟩ := c3_aggregator_dedup_sort_truncate [dupFirst, dupOther, dupRepeat] 2
  exact ⟨hm, h4 dupFirst hm, h1⟩
